import Mathlib

/-!
Verification development for the sustainability-report builder
(`report_generator_bot.py`).

The Python source is shallowly embedded: pure helpers become Lean
functions; the pandas / OpenAI / json / Streamlit boundaries are made
explicit (a tabular source is a `Table` of `Cell`s, the generation
service is an oracle `String → Option String` where `none` is a raised
exception, the JSON parser is a parameter `String → Option Json`, and
Streamlit side effects are recorded in the returned `RunResult`).
Machine details of CPython that the code relies on are modelled
explicitly and documented at the definition they concern.
-/

/-- `normalize_key` from the source: `''.join(ch for ch in s.lower() if ch.isalnum())`.
Python lowercases per character and keeps alphanumeric characters; for the
ASCII labels this program uses, `Char.toLower`/`Char.isAlphanum` agree with
Python's `str.lower`/`str.isalnum`. -/
def normalize_key (s : String) : String :=
  String.mk ((s.toList.map Char.toLower).filter Char.isAlphanum)

/-- The `predefined_keys` dict from the source, mapping normalized labels to
internal questionnaire keys.  Python dict lookup on distinct literal keys is
association-list lookup. -/
def predefined_keys : List (String × String) :=
  [("companyname", "company_name"),
   ("industry", "industry"),
   ("overview", "overview"),
   ("governance", "governance"),
   ("ethics", "ethics"),
   ("businessmodel", "business_model"),
   ("strategy", "strategy"),
   ("stakeholderengagement", "stakeholder_engagement"),
   ("materiality", "materiality"),
   ("environmentalperformance", "environmental_performance"),
   ("environmentaltargets", "environmental_targets"),
   ("socialperformance", "social_performance"),
   ("communityengagement", "community_engagement"),
   ("laborpractices", "labor_practices"),
   ("humanrights", "human_rights"),
   ("supplychain", "supply_chain"),
   ("supplierevaluation", "supplier_evaluation"),
   ("financialsustainability", "financial_sustainability"),
   ("reportingframeworks", "reporting_frameworks"),
   ("dataassurance", "data_assurance"),
   ("kpi", "kpi"),
   ("futuregoals", "future_goals"),
   ("innovation", "innovation"),
   ("riskmanagement", "risk_management")]

/-- The global `questions` list from the source: 24 `(key, question_text)`
pairs, in the fixed questionnaire order. -/
def questions : List (String × String) :=
  [("company_name", "What is the name of your company?"),
   ("industry", "What industry does your company operate in?"),
   ("overview", "Briefly describe your company's main products or services and the regions/countries where you operate."),
   ("governance", "Describe your company's governance structure, including board composition and sustainability oversight."),
   ("ethics", "What policies and practices are in place to ensure ethical behavior and prevent corruption?"),
   ("business_model", "Describe your business model and how it integrates sustainability considerations."),
   ("strategy", "What is your company's overall sustainability strategy and long-term vision? How does sustainability factor into strategic decision-making?"),
   ("stakeholder_engagement", "Who are the key stakeholders your company engages with (e.g., employees, customers, suppliers, community), and how are they involved in your sustainability initiatives?"),
   ("materiality", "Describe the materiality assessment process used to identify key sustainability issues for your company."),
   ("environmental_performance", "Detail your company's environmental performance, including greenhouse gas emissions, energy consumption, water usage, waste management, and resource efficiency."),
   ("environmental_targets", "What environmental targets or goals has your company set, and how are these measured?"),
   ("social_performance", "Describe your company's social policies and practices, including employee well-being, diversity, and inclusion."),
   ("community_engagement", "How does your company contribute to and engage with the local communities in which it operates?"),
   ("labor_practices", "Outline your company's approach to labor practices, including workplace safety, training, and development."),
   ("human_rights", "How does your company ensure compliance with human rights standards and prevent human rights abuses in your operations and supply chain?"),
   ("supply_chain", "Describe how your company assesses and manages sustainability risks in its supply chain."),
   ("supplier_evaluation", "What criteria do you use to evaluate the sustainability performance of your suppliers?"),
   ("financial_sustainability", "What financial risks and opportunities related to sustainability does your company face, and how are these integrated into your financial planning?"),
   ("reporting_frameworks", "Which sustainability reporting frameworks or standards does your company currently use or intend to use?"),
   ("data_assurance", "How is the sustainability data collected, verified, and assured (e.g., through internal audits or external assurance)?"),
   ("kpi", "What key performance indicators (KPIs) do you monitor to track your sustainability performance?"),
   ("future_goals", "What are your company's sustainability goals for the next 5-10 years, and what strategies are in place to achieve them?"),
   ("innovation", "Describe any innovative initiatives or technologies your company is implementing to improve sustainability performance."),
   ("risk_management", "How does your company manage and mitigate sustainability-related risks, including those associated with climate change?")]

/-- A spreadsheet cell as pandas delivers it to the parsing loop: either a
string value or the float NaN that `pd.read_excel` produces for a blank
cell. -/
inductive Cell where
  | str (s : String)
  | nan
  deriving DecidableEq

/-- Python's `str(...)` on a cell value: the identity on strings, and the
literal text `"nan"` on the float NaN (`str(float('nan')) == 'nan'` in
CPython). -/
def pyStr : Cell → String
  | .str s => s
  | .nan => "nan"

/-- A pandas DataFrame as the parsing loop observes it: column names plus
rows of cells.  `pd.read_excel` always yields one cell per column in every
row. -/
structure Table where
  columns : List String
  rows : List (List Cell)

/-- A Python dict keyed by strings, observed through lookup. -/
def PyMap : Type := String → Option String

/-- The empty dict `{}`. -/
def emptyPyMap : PyMap := fun _ => none

/-- Dict assignment `m[k] = v`. -/
def pupdate (m : PyMap) (k v : String) : PyMap :=
  fun x => if x = k then some v else m x

/-- Dict read with default, `m.get(k, "")`. -/
def pyGet (m : PyMap) (k : String) : String := (m k).getD ""

/-- Python `str.strip()`: drop leading and trailing whitespace.  For the
ASCII text this program handles, `Char.isWhitespace` agrees with Python's
notion of whitespace. -/
def pyStrip (s : String) : String :=
  String.mk (((s.toList.dropWhile Char.isWhitespace).reverse.dropWhile
    Char.isWhitespace).reverse)

/-- Index of a column name in a DataFrame's column list (pandas label-based
access uses the first matching column). -/
def colIdx (name : String) : List String → Option Nat
  | [] => none
  | c :: cs => if c = name then some 0 else (colIdx name cs).map (· + 1)

/-- `row.iloc[i]` / `row[label]`: reading a cell raises `IndexError`/`KeyError`
when the position is absent, modelled in `Except`. -/
def getCell (row : List Cell) (i : Nat) : Except Unit Cell :=
  match row.get? i with
  | some c => .ok c
  | none => .error ()

/-- Row access in the `'Key' in df.columns and 'Value' in df.columns` branch:
`str(row['Key'])`, `str(row['Value'])` at the resolved column positions. -/
def extractNamed (ki vi : Nat) (row : List Cell) : Except Unit (String × String) :=
  match getCell row ki with
  | .error e => .error e
  | .ok kc =>
    match getCell row vi with
    | .error e => .error e
    | .ok vc => .ok (pyStr kc, pyStr vc)

/-- Row access in the positional branch: `str(row.iloc[0])`, and
`str(row.iloc[1]) if len(row) > 1 else ""`. -/
def extractPos (row : List Cell) : Except Unit (String × String) :=
  match row with
  | [] => .error ()
  | [kc] => .ok (pyStr kc, "")
  | kc :: vc :: _ => .ok (pyStr kc, pyStr vc)

/-- The `for index, row in df.iterrows()` loop of `parse_uploaded_excel`,
with its enclosing `try`: the first raised exception aborts the loop, is
caught, reported via `st.error`, and the dict accumulated so far is
returned.  The `Bool` records whether `st.error` was called. -/
def parseRows (extract : List Cell → Except Unit (String × String)) :
    PyMap → List (List Cell) → PyMap × Bool
  | m, [] => (m, false)
  | m, row :: rest =>
    match extract row with
    | .error _ => (m, true)
    | .ok kv =>
      match List.lookup (normalize_key kv.1) predefined_keys with
      | some slot => parseRows extract (pupdate m slot kv.2) rest
      | none => parseRows extract m rest

/-- `parse_uploaded_excel` from the source.  `src = none` is the case where
`pd.read_excel` itself raises (malformed/unreadable file): the exception is
caught before any row is processed, `st.error` fires, and the empty dict is
returned.  The `Bool` in the result records whether `st.error` was called. -/
def parse_uploaded_excel (src : Option Table) : PyMap × Bool :=
  match src with
  | none => (emptyPyMap, true)
  | some t =>
    match colIdx "Key" t.columns, colIdx "Value" t.columns with
    | some ki, some vi => parseRows (extractNamed ki vi) emptyPyMap t.rows
    | some _, none => parseRows extractPos emptyPyMap t.rows
    | none, _ => parseRows extractPos emptyPyMap t.rows

/-- Shape every DataFrame produced by `pd.read_excel` has: one cell per
column in every row, and rows are non-empty (a sheet with data has at least
one column). -/
def WellFormedTable (t : Table) : Prop :=
  ∀ row ∈ t.rows, row.length = t.columns.length ∧ row ≠ []

/-- The `prompt_intro` chain of `generate_section`: one fixed introduction per
recognized standard, with a generic fallback. -/
def prompt_intro (standard : String) : String :=
  if standard = "CSRD" then
    "You are a professional sustainability consultant. Based on the provided answer, generate a detailed CSRD-compliant report section."
  else if standard = "GRI" then
    "You are a professional sustainability consultant. Based on the provided answer, generate a detailed GRI-compliant report section."
  else if standard = "TCFD" then
    "You are a professional sustainability consultant. Based on the provided answer, generate a detailed TCFD-aligned report section."
  else if standard = "SASB" then
    "You are a professional sustainability consultant. Based on the provided answer, generate a detailed SASB-compliant report section."
  else if standard = "Integrated Reporting (<IR>)" then
    "You are a professional sustainability consultant. Based on the provided answer, generate a detailed Integrated Reporting (<IR>)-compliant report section."
  else if standard = "CDP" then
    "You are a professional sustainability consultant. Based on the provided answer, generate a detailed CDP-compliant report section focused on environmental transparency."
  else if standard = "AA1000" then
    "You are a professional sustainability consultant. Based on the provided answer, generate a detailed AA1000-compliant report section emphasizing stakeholder engagement and accountability."
  else if standard = "ISO 26000" then
    "You are a professional sustainability consultant. Based on the provided answer, generate a detailed report section aligned with ISO 26000 guidance on social responsibility."
  else if standard = "ISSB" then
    "You are a professional sustainability consultant. Based on the provided answer, generate a detailed ISSB-compliant report section addressing both climate-related and general sustainability disclosures."
  else if standard = "ESRS" then
    "You are a professional sustainability consultant. Based on the provided answer, generate a detailed ESRS-compliant report section covering environmental, social, and governance disclosures."
  else
    "You are a professional sustainability consultant. Based on the provided answer, generate a detailed report section."

/-- The f-string prompt of `generate_section`:
`f"{prompt_intro}\n\nSection: {question_text}\nProvided Answer: {answer}\n\nPlease write a comprehensive section on this topic."`. -/
def buildPrompt (standard question_text answer : String) : String :=
  prompt_intro standard ++ "\n\n" ++ "Section: " ++ question_text ++ "\n" ++
    "Provided Answer: " ++ answer ++ "\n\n" ++
    "Please write a comprehensive section on this topic."

/-- `generate_section` from the source.  The generation service is the
oracle `svc` on the built prompt; `none` is a raised exception from the
`llm(messages)` call.  The `try/except` catches it, calls `st.error`, and
returns the empty string; the `Bool` records whether `st.error` fired. -/
def generate_section (svc : String → Option String)
    (section_key question_text answer standard : String) : String × Bool :=
  match section_key, svc (buildPrompt standard question_text answer) with
  | _, some content => (content, false)
  | _, none => ("", true)

/-- Observable outcome of one `generate_full_report` run: the returned
accumulator string, every value handed to the Streamlit progress bar
(`st.progress(0)` at initialization, then each `progress_bar.progress(p)`),
the number of per-section `st.error` reports, whether the fatal
`"No responses provided."` error fired, and the number of generation-service
invocations. -/
structure RunResult where
  report : String
  progressValues : List Nat
  sectionErrors : Nat
  noResponsesError : Bool
  svcCalls : Nat
  deriving DecidableEq

/-- The `if answer.strip():` test of `generate_full_report`, as a predicate on
a questionnaire entry. -/
def answeredB (rd : PyMap) (q : String × String) : Bool :=
  !(pyStrip (pyGet rd q.1) == "")

/-- Loop body of `generate_full_report`: for an answered slot, generate the
section, append `f"# {section_content}\n\n"`, increment `completed`, and
report `int((completed / total_sections) * 100)`.  CPython computes that
percentage in floating point; for every `completed ≤ total ≤ 24` (and the
questionnaire has 24 slots) the float result equals the integer floor
division `completed * 100 / total`, which is what is written here. -/
def reportStep (svc : String → Option String) (rd : PyMap) (standard : String)
    (total : Nat) (acc : RunResult × Nat) (q : String × String) : RunResult × Nat :=
  let answer := pyGet rd q.1
  if pyStrip answer == "" then acc
  else
    let s := generate_section svc q.1 q.2 answer standard
    let completed := acc.2 + 1
    ({ acc.1 with
        report := acc.1.report ++ ("# " ++ s.1 ++ "\n\n"),
        progressValues := acc.1.progressValues ++ [completed * 100 / total],
        sectionErrors := acc.1.sectionErrors + (if s.2 then 1 else 0),
        svcCalls := acc.1.svcCalls + 1 },
      completed)

/-- `generate_full_report` from the source: count the answered slots, fail
with `"No responses provided."` when there are none, otherwise initialize the
progress bar at 0 and fold the loop body over the fixed questionnaire. -/
def generate_full_report (svc : String → Option String) (rd : PyMap)
    (standard : String) : RunResult :=
  let answered_keys := (questions.filter (answeredB rd)).map Prod.fst
  let total_sections := answered_keys.length
  if total_sections = 0 then
    { report := "", progressValues := [], sectionErrors := 0,
      noResponsesError := true, svcCalls := 0 }
  else
    (questions.foldl (reportStep svc rd standard total_sections)
      ({ report := "", progressValues := [0], sectionErrors := 0,
         noResponsesError := false, svcCalls := 0 }, 0)).1

/-- Concatenation of section chunks (explicit recursion so that the fold
lemmas unfold definitionally). -/
def concatChunks : List String → String
  | [] => ""
  | c :: cs => c ++ concatChunks cs

/-- The chunk one answered slot appends to the accumulator. -/
def sectionChunk (svc : String → Option String) (rd : PyMap) (standard : String)
    (q : String × String) : String :=
  "# " ++ (generate_section svc q.1 q.2 (pyGet rd q.1) standard).1 ++ "\n\n"

/-- The percentages reported for `k` consecutive completed sections starting
after `n` already-completed ones, out of `total`. -/
def pctList (total n : Nat) : Nat → List Nat
  | 0 => []
  | k + 1 => (n + 1) * 100 / total :: pctList total (n + 1) k

/-- A parsed JSON value, as `json.loads` returns it (numbers restricted to
integers, which covers every value these claims touch; Python `None` is
`null`). -/
inductive Json where
  | null
  | bool (b : Bool)
  | num (n : Int)
  | str (s : String)
  | arr (elems : List Json)
  | obj (fields : List (String × Json))

/-- The `compliance_prompt` chain of `measure_compliance`: one fixed
evaluation instruction per recognized standard, with a generic fallback,
each ending with the report text. -/
def compliance_prompt (standard report_text : String) : String :=
  if standard = "CSRD" then
    "You are an expert in sustainability reporting with extensive knowledge of the CSRD standard. Evaluate the compliance of the following report with the CSRD standard and provide your evaluation in a JSON format with the following keys: \x27score\x27 (a number between 1 and 100), \x27strengths\x27, \x27weaknesses\x27, and \x27recommendations\x27. Here is the report:\n\n" ++ report_text
  else if standard = "GRI" then
    "You are an expert in sustainability reporting with extensive knowledge of the GRI standards. Evaluate the compliance of the following report with the GRI standards and provide your evaluation in a JSON format with the following keys: \x27score\x27 (a number between 1 and 100), \x27strengths\x27, \x27weaknesses\x27, and \x27recommendations\x27. Here is the report:\n\n" ++ report_text
  else if standard = "TCFD" then
    "You are an expert in sustainability reporting with extensive knowledge of the TCFD recommendations. Evaluate the compliance of the following report with the TCFD recommendations and provide your evaluation in a JSON format with the following keys: \x27score\x27 (a number between 1 and 100), \x27strengths\x27, \x27weaknesses\x27, and \x27recommendations\x27. Here is the report:\n\n" ++ report_text
  else if standard = "SASB" then
    "You are an expert in sustainability reporting with extensive knowledge of SASB standards. Evaluate the compliance of the following report with SASB standards and provide your evaluation in a JSON format with the following keys: \x27score\x27 (a number between 1 and 100), \x27strengths\x27, \x27weaknesses\x27, and \x27recommendations\x27. Here is the report:\n\n" ++ report_text
  else if standard = "Integrated Reporting (<IR>)" then
    "You are an expert in sustainability reporting with extensive knowledge of Integrated Reporting (<IR>) guidelines. Evaluate the compliance of the following report with Integrated Reporting guidelines and provide your evaluation in a JSON format with the following keys: \x27score\x27 (a number between 1 and 100), \x27strengths\x27, \x27weaknesses\x27, and \x27recommendations\x27. Here is the report:\n\n" ++ report_text
  else if standard = "CDP" then
    "You are an expert in sustainability reporting with extensive knowledge of CDP requirements. Evaluate the compliance of the following report with CDP guidelines and provide your evaluation in a JSON format with the following keys: \x27score\x27 (a number between 1 and 100), \x27strengths\x27, \x27weaknesses\x27, and \x27recommendations\x27. Here is the report:\n\n" ++ report_text
  else if standard = "AA1000" then
    "You are an expert in sustainability reporting with extensive knowledge of AA1000 standards. Evaluate the compliance of the following report with AA1000 principles and provide your evaluation in a JSON format with the following keys: \x27score\x27 (a number between 1 and 100), \x27strengths\x27, \x27weaknesses\x27, and \x27recommendations\x27. Here is the report:\n\n" ++ report_text
  else if standard = "ISO 26000" then
    "You are an expert in sustainability reporting with extensive knowledge of ISO 26000 guidance. Evaluate the compliance of the following report with ISO 26000 principles on social responsibility and provide your evaluation in a JSON format with the following keys: \x27score\x27 (a number between 1 and 100), \x27strengths\x27, \x27weaknesses\x27, and \x27recommendations\x27. Here is the report:\n\n" ++ report_text
  else if standard = "ISSB" then
    "You are an expert in sustainability reporting with extensive knowledge of ISSB guidelines. Evaluate the compliance of the following report with ISSB standards and provide your evaluation in a JSON format with the following keys: \x27score\x27 (a number between 1 and 100), \x27strengths\x27, \x27weaknesses\x27, and \x27recommendations\x27. Here is the report:\n\n" ++ report_text
  else if standard = "ESRS" then
    "You are an expert in sustainability reporting with extensive knowledge of the European Sustainability Reporting Standards (ESRS). Evaluate the compliance of the following report with ESRS and provide your evaluation in a JSON format with the following keys: \x27score\x27 (a number between 1 and 100), \x27strengths\x27, \x27weaknesses\x27, and \x27recommendations\x27. Here is the report:\n\n" ++ report_text
  else
    "You are an expert in sustainability reporting. Evaluate the compliance of the following report with the relevant sustainability reporting standards and provide your evaluation in a JSON format with the following keys: \x27score\x27 (a number between 1 and 100), \x27strengths\x27, \x27weaknesses\x27, and \x27recommendations\x27. Here is the report:\n\n" ++ report_text

/-- The fallback dict `{"score": None, "strengths": result, "weaknesses": "",
"recommendations": ""}` built when `json.loads` raises or the parsed value
is not a dict. -/
def complianceFallback (result : String) : List (String × Json) :=
  [("score", Json.null), ("strengths", Json.str result),
   ("weaknesses", Json.str ""), ("recommendations", Json.str "")]

/-- `measure_compliance` from the source.  `loads` is Python's `json.loads`
(external library, a parameter of the embedding; `none` is a raised
`JSONDecodeError`).  `svc` is the generation service on the built prompt;
its call is not wrapped in `try/except`, so a service failure propagates
out of `measure_compliance`, modelled as the `none` result.  On success the
response content is stripped (`result = response.content.strip()`) before
parsing; the returned dict is the parsed object, or the fallback. -/
def measure_compliance (loads : String → Option Json) (svc : String → Option String)
    (report_text standard : String) : Option (List (String × Json)) :=
  match svc (compliance_prompt standard report_text) with
  | none => none
  | some content =>
    let result := pyStrip content
    some (match loads result with
      | some (Json.obj fields) => fields
      | some _ => complianceFallback result
      | none => complianceFallback result)

/-- The final sanitization pass of `create_pdf` applies
`.replace('–', '-').replace('—', '-').replace('’', "'")` to
every page.  Each pattern and replacement is a single character, so Python
`str.replace` acts independently on each character: the chain is this
per-character map. -/
def sanitizeChar (c : Char) : Char :=
  if c = '–' then '-'
  else if c = '—' then '-'
  else if c = '’' then '\x27'
  else c

/-- One page of `pdf.pages` after the sanitization pass. -/
def sanitizePage (page : String) : String :=
  String.mk (page.toList.map sanitizeChar)

/-- The `for key in list(pdf.pages.keys())` loop: sanitize every page. -/
def sanitizePages (pages : List String) : List String :=
  pages.map sanitizePage

/-- One output byte of `...encode("latin1", errors="replace")`: a character
below U+0100 encodes as its code point, and any character outside the
Latin-1 range is substituted with `?` (byte 63) instead of raising. -/
def latin1ReplaceByte (c : Char) : Nat :=
  if c.toNat < 256 then c.toNat else 63

/-- `encode("latin1", errors="replace")` over a page: total, never raises. -/
def encodeLatin1Replace (s : String) : List Nat :=
  s.toList.map latin1ReplaceByte

/-- The 24 `Key` labels of the downloadable template `template_df`. -/
def templateLabels : List String :=
  ["Company Name", "Industry", "Overview", "Governance", "Ethics",
   "Business Model", "Strategy", "Stakeholder Engagement", "Materiality",
   "Environmental Performance", "Environmental Targets", "Social Performance",
   "Community Engagement", "Labor Practices", "Human Rights", "Supply Chain",
   "Supplier Evaluation", "Financial Sustainability", "Reporting Frameworks",
   "Data Assurance", "KPI", "Future Goals", "Innovation", "Risk Management"]

/-- The template as `parse_uploaded_excel` observes it after the round trip
through `to_excel`/`read_excel`: the `Value` column was written as empty
strings, Excel stores those cells as blank, and `pd.read_excel` delivers a
blank cell as the float NaN. -/
def templateTable : Table :=
  ⟨["Key", "Value"], templateLabels.map (fun l => [Cell.str l, Cell.nan])⟩

/-- The template filled only with `Company Name = "Acme"` and
`Industry = "Tech"`, every other `Value` cell left blank (hence NaN after
`read_excel`). -/
def filledTemplateTable : Table :=
  ⟨["Key", "Value"],
   templateLabels.map (fun l =>
     [Cell.str l,
      if l = "Company Name" then Cell.str "Acme"
      else if l = "Industry" then Cell.str "Tech"
      else Cell.nan])⟩

/-- `answered` as `generate_full_report` computes it: the questionnaire
slots whose stripped answer is non-empty. -/
def answeredQs (rd : PyMap) : List (String × String) :=
  questions.filter (answeredB rd)

/-- Concrete answer map with exactly one answered slot. -/
def rdOne : PyMap := fun k => if k = "company_name" then some "A" else none

/-- Concrete answer map with exactly two answered slots. -/
def rdTwo : PyMap := fun k =>
  if k = "company_name" then some "A"
  else if k = "industry" then some "B"
  else none

/-- Concrete service oracle that fails exactly on the prompt built for the
`company_name` slot of `rdTwo` and succeeds everywhere else. -/
def svcFailCompany : String → Option String :=
  fun p =>
    if p = buildPrompt "GRI" "What is the name of your company?" "A" then none
    else some "GEN"

example : normalize_key "Company Name" = "companyname" := by decide
example : normalize_key "KPI" = "kpi" := by decide
example : pyStrip "  a b  " = "a b" := by decide
example : pyStrip "nan" = "nan" := by decide
example :
    (parse_uploaded_excel (some ⟨["A", "B"], [[Cell.str "Industry", Cell.str "Retail"]]⟩)).1
      "industry" = some "Retail" := by decide
example :
    (generate_full_report (fun _ => some "S") rdOne "GRI").report = "# S\n\n" := by decide
example :
    (generate_full_report (fun _ => some "S") rdOne "GRI").progressValues = [0, 100] := by
  decide
example :
    (generate_full_report (fun _ => some "S") (fun _ => none) "GRI").noResponsesError
      = true := by decide
example : sanitizePage "a–b’c" = "a-b\x27c" := by decide
example :
    measure_compliance (fun _ => none) (fun _ => some "not json at all") "r" "CSRD"
      = some (complianceFallback "not json at all") := rfl
example :
    (parse_uploaded_excel (some filledTemplateTable)).1 "overview" = some "nan" := by
  decide

/-! ### Shared lemmas about ingestion -/

theorem lookup_mem_values {β : Type} (a : String) (l : List (String × β)) (b : β)
    (h : List.lookup a l = some b) : b ∈ l.map Prod.snd := by
  induction l with
  | nil => simp [List.lookup] at h
  | cons p rest ih =>
    obtain ⟨k, v⟩ := p
    cases hab : a == k with
    | true => simp [List.lookup, hab] at h; simp [h]
    | false =>
      rw [List.lookup, hab] at h
      exact List.mem_cons_of_mem _ (ih h)

theorem pupdate_eval (m : PyMap) (k v x : String) :
    pupdate m k v x = if x = k then some v else m x := rfl

/-- Keys ever written by the row loop come from the `predefined_keys`
table. -/
theorem parseRows_support (extract : List Cell → Except Unit (String × String))
    (m : PyMap) (rows : List (List Cell)) (k : String)
    (h : (parseRows extract m rows).1 k ≠ none) :
    m k ≠ none ∨ k ∈ predefined_keys.map Prod.snd := by
  induction rows generalizing m with
  | nil => exact Or.inl h
  | cons row rest ih =>
    cases hex : extract row with
    | error e =>
      simp only [parseRows, hex] at h
      exact Or.inl h
    | ok kv =>
      simp only [parseRows, hex] at h
      cases hlk : List.lookup (normalize_key kv.1) predefined_keys with
      | none => simp only [hlk] at h; exact ih _ h
      | some slot =>
        simp only [hlk] at h
        rcases ih _ h with hm | hp
        · by_cases hks : k = slot
          · exact Or.inr (hks ▸ lookup_mem_values _ _ _ hlk)
          · left; simpa [pupdate, hks] using hm
        · exact Or.inr hp

/-- If every row extracts cleanly, the loop finishes without `st.error`. -/
theorem parseRows_noError (extract : List Cell → Except Unit (String × String))
    (m : PyMap) (rows : List (List Cell))
    (h : ∀ row ∈ rows, ∃ kv, extract row = Except.ok kv) :
    (parseRows extract m rows).2 = false := by
  induction rows generalizing m with
  | nil => rfl
  | cons row rest ih =>
    obtain ⟨kv, hkv⟩ := h row (by simp)
    simp only [parseRows, hkv]
    cases hlk : List.lookup (normalize_key kv.1) predefined_keys with
    | some slot =>
      simp only [hlk]; exact ih _ (fun r hr => h r (List.mem_cons_of_mem _ hr))
    | none =>
      simp only [hlk]; exact ih _ (fun r hr => h r (List.mem_cons_of_mem _ hr))

/-- When no earlier row raised, processing continues through appended rows
from the dict accumulated so far. -/
theorem parseRows_append (extract : List Cell → Except Unit (String × String))
    (m : PyMap) (rows rest : List (List Cell))
    (h : (parseRows extract m rows).2 = false) :
    parseRows extract m (rows ++ rest) =
      parseRows extract (parseRows extract m rows).1 rest := by
  induction rows generalizing m with
  | nil => rfl
  | cons row rs ih =>
    cases hex : extract row with
    | error e =>
      rw [parseRows, hex] at h
      cases h
    | ok kv =>
      simp only [List.cons_append, parseRows, hex] at h ⊢
      cases hlk : List.lookup (normalize_key kv.1) predefined_keys with
      | some slot =>
        simp only [hlk] at h ⊢
        exact ih _ h
      | none =>
        simp only [hlk] at h ⊢
        exact ih _ h

theorem extractNamed01_eval (a b : Cell) (tl : List Cell) :
    extractNamed 0 1 (a :: b :: tl) = Except.ok (pyStr a, pyStr b) := rfl

theorem extractNamed01_ok (row : List Cell) (h : row.length = 2) :
    ∃ kv, extractNamed 0 1 row = Except.ok kv := by
  cases row with
  | nil => simp at h
  | cons a rest =>
    cases rest with
    | nil => simp at h
    | cons b rest2 => exact ⟨(pyStr a, pyStr b), rfl⟩

theorem parseRows_single_named (m : PyMap) (kc vc : Cell) (slot : String)
    (h : List.lookup (normalize_key (pyStr kc)) predefined_keys = some slot) :
    parseRows (extractNamed 0 1) m [[kc, vc]] = (pupdate m slot (pyStr vc), false) := by
  simp only [parseRows, extractNamed01_eval, h]

theorem parseRows_single_named_skip (m : PyMap) (kc vc : Cell)
    (h : List.lookup (normalize_key (pyStr kc)) predefined_keys = none) :
    parseRows (extractNamed 0 1) m [[kc, vc]] = (m, false) := by
  simp only [parseRows, extractNamed01_eval, h]

/-- On a `"Key"`/`"Value"` table the named branch is taken, with the column
indices of those labels. -/
theorem parse_keyvalue_table (rows : List (List Cell)) :
    parse_uploaded_excel (some ⟨["Key", "Value"], rows⟩) =
      parseRows (extractNamed 0 1) emptyPyMap rows := rfl

/-! ### Shared lemmas about the generation run -/

theorem pctList_length (total n k : Nat) : (pctList total n k).length = k := by
  induction k generalizing n with
  | zero => rfl
  | succ k ih => simp [pctList, ih]

theorem pctList_lower_bound (total k : Nat) :
    ∀ n, ∀ x ∈ pctList total n k, (n + 1) * 100 / total ≤ x := by
  induction k with
  | zero => intro n x hx; simp [pctList] at hx
  | succ k ih =>
    intro n x hx
    rw [pctList] at hx
    rcases List.mem_cons.mp hx with h | h
    · exact h ▸ le_refl _
    · exact le_trans
        (Nat.div_le_div_right (Nat.mul_le_mul_right 100 (by omega)))
        (ih (n + 1) x h)

theorem pctList_pairwise (total k : Nat) :
    ∀ n, List.Pairwise (· ≤ ·) (pctList total n k) := by
  induction k with
  | zero => intro n; simp [pctList]
  | succ k ih =>
    intro n
    rw [pctList]
    refine List.pairwise_cons.mpr ⟨fun x hx => ?_, ih (n + 1)⟩
    exact le_trans
      (Nat.div_le_div_right (Nat.mul_le_mul_right 100 (by omega)))
      (pctList_lower_bound total k (n + 1) x hx)

theorem pctList_getLast (total k : Nat) :
    ∀ n, (pctList total n (k + 1)).getLast? = some ((n + (k + 1)) * 100 / total) := by
  induction k with
  | zero => intro n; simp [pctList]
  | succ k ih =>
    intro n
    rw [show pctList total n (k + 1 + 1) =
          (n + 1) * 100 / total :: pctList total (n + 1) (k + 1) from rfl]
    rw [show pctList total (n + 1) (k + 1) =
          (n + 1 + 1) * 100 / total :: pctList total (n + 1 + 1) k from rfl]
    rw [List.getLast?_cons_cons]
    rw [← show pctList total (n + 1) (k + 1) =
          (n + 1 + 1) * 100 / total :: pctList total (n + 1 + 1) k from rfl]
    rw [ih (n + 1)]
    have harith : n + 1 + (k + 1) = n + (k + 1 + 1) := by omega
    rw [harith]

/-- Closed form of the `generate_full_report` loop over any question list:
one chunk, one progress report, one service call per answered slot, with
`completed` advancing by one on every answered slot. -/
theorem reportFold_closed (svc : String → Option String) (rd : PyMap)
    (standard : String) (total : Nat) (qs : List (String × String))
    (st : RunResult) (n : Nat) :
    qs.foldl (reportStep svc rd standard total) (st, n) =
      ({ report := st.report ++
           concatChunks ((qs.filter (answeredB rd)).map (sectionChunk svc rd standard)),
         progressValues := st.progressValues ++
           pctList total n (qs.filter (answeredB rd)).length,
         sectionErrors := st.sectionErrors +
           (qs.filter (answeredB rd)).countP
             (fun q => (generate_section svc q.1 q.2 (pyGet rd q.1) standard).2),
         noResponsesError := st.noResponsesError,
         svcCalls := st.svcCalls + (qs.filter (answeredB rd)).length },
       n + (qs.filter (answeredB rd)).length) := by
  induction qs generalizing st n with
  | nil =>
    simp [concatChunks, pctList]
  | cons q rest ih =>
    rw [List.foldl_cons]
    cases hq : pyStrip (pyGet rd q.1) == "" with
    | true =>
      have hstep : reportStep svc rd standard total (st, n) q = (st, n) := by
        simp [reportStep, hq]
      rw [hstep, ih]
      simp [List.filter_cons, answeredB, hq]
    | false =>
      have hstep : reportStep svc rd standard total (st, n) q =
          ({ report := st.report ++
               ("# " ++ (generate_section svc q.1 q.2 (pyGet rd q.1) standard).1 ++ "\n\n"),
             progressValues := st.progressValues ++ [(n + 1) * 100 / total],
             sectionErrors := st.sectionErrors +
               (if (generate_section svc q.1 q.2 (pyGet rd q.1) standard).2 then 1 else 0),
             noResponsesError := st.noResponsesError,
             svcCalls := st.svcCalls + 1 }, n + 1) := by
        simp [reportStep, hq]
      rw [hstep, ih]
      have hfil : (q :: rest).filter (answeredB rd) = q :: rest.filter (answeredB rd) := by
        simp [List.filter_cons, answeredB, hq]
      rw [hfil]
      simp [List.map_cons, concatChunks, List.length_cons, List.countP_cons,
        sectionChunk, pctList, List.append_assoc, List.singleton_append,
        String.append_assoc, Nat.add_assoc, Nat.add_comm, Nat.add_left_comm]

theorem colIdx_lt_length (name : String) :
    ∀ (cols : List String) (i : Nat), colIdx name cols = some i → i < cols.length := by
  intro cols
  induction cols with
  | nil => intro i h; simp [colIdx] at h
  | cons c cs ih =>
    intro i h
    rw [colIdx] at h
    split at h
    · cases h; simp
    · rcases Option.map_eq_some'.mp h with ⟨j, hj, rfl⟩
      have := ih j hj
      simp only [List.length_cons]
      omega

theorem extractNamed_ok (ki vi : Nat) (row : List Cell)
    (hki : ki < row.length) (hvi : vi < row.length) :
    ∃ kv, extractNamed ki vi row = Except.ok kv := by
  have h1 : row[ki]? = some row[ki] := List.getElem?_eq_getElem hki
  have h2 : row[vi]? = some row[vi] := List.getElem?_eq_getElem hvi
  exact ⟨(pyStr row[ki], pyStr row[vi]), by simp [extractNamed, getCell, h1, h2]⟩

theorem extractPos_ok (row : List Cell) (h : row ≠ []) :
    ∃ kv, extractPos row = Except.ok kv := by
  cases row with
  | nil => exact absurd rfl h
  | cons a rest =>
    cases rest with
    | nil => exact ⟨(pyStr a, ""), rfl⟩
    | cons b r2 => exact ⟨(pyStr a, pyStr b), rfl⟩

/-- Every target of the `predefined_keys` table is a key of the fixed
questionnaire. -/
theorem predefined_values_in_questions :
    ∀ x ∈ predefined_keys.map Prod.snd, x ∈ questions.map Prod.fst := by decide

/-- Closed form of a whole `generate_full_report` run with at least one
answered slot. -/
theorem generate_full_report_closed (svc : String → Option String) (rd : PyMap)
    (standard : String) (h : (answeredQs rd).length ≠ 0) :
    generate_full_report svc rd standard =
      { report := concatChunks ((answeredQs rd).map (sectionChunk svc rd standard)),
        progressValues := 0 :: pctList (answeredQs rd).length 0 (answeredQs rd).length,
        sectionErrors := (answeredQs rd).countP
          (fun q => (generate_section svc q.1 q.2 (pyGet rd q.1) standard).2),
        noResponsesError := false,
        svcCalls := (answeredQs rd).length } := by
  have h' : ¬(((questions.filter (answeredB rd)).map Prod.fst).length = 0) := by
    simpa [answeredQs, List.length_map] using h
  simp only [generate_full_report, if_neg h']
  rw [reportFold_closed]
  simp [answeredQs, String.empty_append, List.length_map]

/-- The characters produced by the sanitization pass avoid the three
typographic code points. -/
theorem sanitizeChar_avoids (c : Char) :
    sanitizeChar c ≠ '–' ∧ sanitizeChar c ≠ '—' ∧ sanitizeChar c ≠ '’' := by
  unfold sanitizeChar
  split_ifs with h1 h2 h3
  · exact ⟨by decide, by decide, by decide⟩
  · exact ⟨by decide, by decide, by decide⟩
  · exact ⟨by decide, by decide, by decide⟩
  · exact ⟨h1, h2, h3⟩

theorem latin1ReplaceByte_lt (c : Char) : latin1ReplaceByte c < 256 := by
  unfold latin1ReplaceByte
  split_ifs with h
  · exact h
  · omega

/-! ### Claim theorems -/

/-- C7: if no slot in the question sequence has a non-empty trimmed answer,
`generate_full_report` fails the run with the "No responses provided."
condition, makes no generation-service call, invokes no progress callback,
and returns empty output. -/
theorem empty_input_no_output (svc : String → Option String) (rd : PyMap)
    (standard : String)
    (h : ∀ q ∈ questions, pyStrip (pyGet rd q.1) = "") :
    generate_full_report svc rd standard =
      { report := "", progressValues := [], sectionErrors := 0,
        noResponsesError := true, svcCalls := 0 } := by
  have hfil : questions.filter (answeredB rd) = [] := by
    refine List.filter_eq_nil_iff.mpr (fun q hq => ?_)
    simp [answeredB, h q hq]
  simp [generate_full_report, hfil]

/-- Witness for `empty_input_no_output` at the empty answer map. -/
theorem empty_input_no_output_wit :
    (∀ q ∈ questions, pyStrip (pyGet emptyPyMap q.1) = "") ∧
    generate_full_report (fun _ => some "S") emptyPyMap "GRI" =
      { report := "", progressValues := [], sectionErrors := 0,
        noResponsesError := true, svcCalls := 0 } :=
  ⟨by decide, empty_input_no_output (fun _ => some "S") emptyPyMap "GRI" (by decide)⟩

/-- C2 counterexample: with exactly one answered slot and a generation
service that always fails, the single call fails (`sectionErrors = 1`, so
there is no successful generation call at all), yet `completed` is still
incremented: the progress callback fires with `100` and the failed slot's
empty chunk is appended.  This refutes the claim that the completed counter
is incremented only upon a successful generation call. -/
theorem progress_counts_failed_call_cex :
    (generate_full_report (fun _ => none) rdOne "GRI").sectionErrors = 1 ∧
    (generate_full_report (fun _ => none) rdOne "GRI").progressValues = [0, 100] ∧
    (generate_full_report (fun _ => none) rdOne "GRI").report = "# \n\n" := by
  decide

/-- C2 as amended: during `generate_full_report`, `completed` is incremented
after every generation call for an answered slot, successful or not; the
progress bar is initialized at 0 and then updated after each processed
section with `floor(100 * completed / total)` where `total` counts the
slots with non-empty trimmed answers; the reported sequence is monotonically
non-decreasing; and the final reported value is 100 whenever at least one
slot is answered. -/
theorem progress_accounting (svc : String → Option String) (rd : PyMap)
    (standard : String) (h : 0 < (answeredQs rd).length) :
    (generate_full_report svc rd standard).progressValues =
        0 :: pctList (answeredQs rd).length 0 (answeredQs rd).length ∧
    List.Pairwise (· ≤ ·) (generate_full_report svc rd standard).progressValues ∧
    (generate_full_report svc rd standard).progressValues.getLast? = some 100 ∧
    (generate_full_report svc rd standard).svcCalls = (answeredQs rd).length ∧
    (generate_full_report svc rd standard).progressValues.length =
      (answeredQs rd).length + 1 := by
  rw [generate_full_report_closed svc rd standard (by omega)]
  refine ⟨rfl, ?_, ?_, rfl, ?_⟩
  · exact List.pairwise_cons.mpr
      ⟨fun x _ => Nat.zero_le x, pctList_pairwise _ _ _⟩
  · obtain ⟨k, hk⟩ : ∃ j, (answeredQs rd).length = j + 1 :=
      ⟨(answeredQs rd).length - 1, by omega⟩
    rw [hk]
    rw [show (0 : Nat) :: pctList (k + 1) 0 (k + 1) =
          0 :: (0 + 1) * 100 / (k + 1) :: pctList (k + 1) (0 + 1) k from rfl]
    rw [List.getLast?_cons_cons]
    rw [show ((0 : Nat) + 1) * 100 / (k + 1) :: pctList (k + 1) (0 + 1) k =
          pctList (k + 1) 0 (k + 1) from rfl]
    rw [pctList_getLast (k + 1) k 0]
    have h100 : (0 + (k + 1)) * 100 / (k + 1) = 100 := by
      rw [Nat.zero_add]
      exact Nat.mul_div_cancel_left 100 (Nat.succ_pos k)
    rw [h100]
  · simp [pctList_length]

/-- Witness for `progress_accounting` at a two-slot answer map. -/
theorem progress_accounting_wit :
    0 < (answeredQs rdTwo).length ∧
    ((generate_full_report (fun _ => some "S") rdTwo "GRI").progressValues =
        0 :: pctList (answeredQs rdTwo).length 0 (answeredQs rdTwo).length ∧
      List.Pairwise (· ≤ ·)
        (generate_full_report (fun _ => some "S") rdTwo "GRI").progressValues ∧
      (generate_full_report (fun _ => some "S") rdTwo "GRI").progressValues.getLast?
        = some 100 ∧
      (generate_full_report (fun _ => some "S") rdTwo "GRI").svcCalls
        = (answeredQs rdTwo).length ∧
      (generate_full_report (fun _ => some "S") rdTwo "GRI").progressValues.length
        = (answeredQs rdTwo).length + 1) :=
  ⟨by decide, progress_accounting (fun _ => some "S") rdTwo "GRI" (by decide)⟩

set_option maxRecDepth 4000 in
/-- C1 counterexample: two answered slots (`company_name`, `industry`),
with the generation service failing exactly on the `company_name` prompt.
The assembled text is `"# \n\n# GEN\n\n"`: the failed slot still contributes
the empty heading block `"# \n\n"`, so the output does not consist of
heading blocks for every answered slot except the failed one (that would be
`"# GEN\n\n"`). -/
theorem section_failure_adds_empty_heading_cex :
    (generate_full_report svcFailCompany rdTwo "GRI").report = "# \n\n# GEN\n\n" ∧
    (generate_full_report svcFailCompany rdTwo "GRI").report ≠ "# GEN\n\n" ∧
    (generate_full_report svcFailCompany rdTwo "GRI").noResponsesError = false := by
  decide

/-- C1 as amended: if the generation-service call for an answered slot `qk`
fails, the failure is reported and non-fatal: the run continues through the
whole questionnaire and completes, every answered slot contributes the chunk
`"# " ++ generated_text ++ "\n\n"` in questionnaire order, and the failed
slot contributes the empty heading block `"# \n\n"` (rather than no text at
all). -/
theorem section_failure_nonfatal_empty_heading (svc : String → Option String)
    (rd : PyMap) (standard : String) (qk : String × String)
    (hk : qk ∈ answeredQs rd)
    (hfail : svc (buildPrompt standard qk.2 (pyGet rd qk.1)) = none) :
    (generate_full_report svc rd standard).noResponsesError = false ∧
    (generate_full_report svc rd standard).report =
      concatChunks ((answeredQs rd).map (sectionChunk svc rd standard)) ∧
    sectionChunk svc rd standard qk = "# \n\n" ∧
    0 < (generate_full_report svc rd standard).sectionErrors := by
  have hlen : (answeredQs rd).length ≠ 0 := by
    intro h0
    rw [List.length_eq_zero] at h0
    rw [h0] at hk
    exact absurd hk (List.not_mem_nil qk)
  rw [generate_full_report_closed svc rd standard hlen]
  refine ⟨rfl, rfl, ?_, ?_⟩
  · simp [sectionChunk, generate_section, hfail]
  · refine List.countP_pos_iff.mpr ⟨qk, hk, ?_⟩
    simp [generate_section, hfail]

set_option maxRecDepth 4000 in
/-- Witness for `section_failure_nonfatal_empty_heading` at `rdTwo` and
the oracle failing on the `company_name` prompt. -/
theorem section_failure_nonfatal_empty_heading_wit :
    (("company_name", "What is the name of your company?") ∈ answeredQs rdTwo) ∧
    svcFailCompany (buildPrompt "GRI" "What is the name of your company?"
      (pyGet rdTwo "company_name")) = none ∧
    ((generate_full_report svcFailCompany rdTwo "GRI").noResponsesError = false ∧
      (generate_full_report svcFailCompany rdTwo "GRI").report =
        concatChunks ((answeredQs rdTwo).map (sectionChunk svcFailCompany rdTwo "GRI")) ∧
      sectionChunk svcFailCompany rdTwo "GRI"
        ("company_name", "What is the name of your company?") = "# \n\n" ∧
      0 < (generate_full_report svcFailCompany rdTwo "GRI").sectionErrors) :=
  ⟨by decide, by decide,
    section_failure_nonfatal_empty_heading svcFailCompany rdTwo "GRI"
      ("company_name", "What is the name of your company?") (by decide) (by decide)⟩

/-- C8: row resolution in `parse_uploaded_excel`: the named `"Key"`/`"Value"`
columns take precedence over positions (shown on a table whose `Key` column
is physically second); otherwise the first two columns are used positionally
with the value defaulting to `""` when a row has fewer than two columns;
rows whose normalized label resolves are assigned last-write-wins; rows
whose label does not resolve are silently skipped. -/
theorem ingest_row_resolution :
    ((parse_uploaded_excel
        (some ⟨["Value", "Key"], [[Cell.str "Retail", Cell.str "Industry"]]⟩)).1
        "industry" = some "Retail") ∧
    (∀ l v slot, List.lookup (normalize_key l) predefined_keys = some slot →
      (parse_uploaded_excel (some ⟨["A", "B"], [[Cell.str l, Cell.str v]]⟩)).1 slot
        = some v) ∧
    (∀ l slot, List.lookup (normalize_key l) predefined_keys = some slot →
      (parse_uploaded_excel (some ⟨["A"], [[Cell.str l]]⟩)).1 slot = some "") ∧
    (∀ rows l v slot, (∀ r ∈ rows, r.length = 2) →
      List.lookup (normalize_key l) predefined_keys = some slot →
      (parse_uploaded_excel
          (some ⟨["Key", "Value"], rows ++ [[Cell.str l, Cell.str v]]⟩)).1 slot
        = some v) ∧
    (∀ rows l v, (∀ r ∈ rows, r.length = 2) →
      List.lookup (normalize_key l) predefined_keys = none →
      parse_uploaded_excel
          (some ⟨["Key", "Value"], rows ++ [[Cell.str l, Cell.str v]]⟩)
        = parse_uploaded_excel (some ⟨["Key", "Value"], rows⟩)) := by
  refine ⟨by decide, ?_, ?_, ?_, ?_⟩
  · intro l v slot hlk
    show (parseRows extractPos emptyPyMap [[Cell.str l, Cell.str v]]).1 slot = some v
    simp [parseRows, show extractPos [Cell.str l, Cell.str v]
        = Except.ok (l, v) from rfl, hlk, pupdate]
  · intro l slot hlk
    show (parseRows extractPos emptyPyMap [[Cell.str l]]).1 slot = some ""
    simp [parseRows, show extractPos [Cell.str l]
        = Except.ok (l, "") from rfl, hlk, pupdate]
  · intro rows l v slot hwf hlk
    rw [parse_keyvalue_table]
    have hne : (parseRows (extractNamed 0 1) emptyPyMap rows).2 = false :=
      parseRows_noError _ _ _ (fun r hr => extractNamed01_ok r (hwf r hr))
    rw [parseRows_append _ _ _ _ hne]
    rw [parseRows_single_named _ (Cell.str l) (Cell.str v) slot hlk]
    simp [pupdate, pyStr]
  · intro rows l v hwf hlk
    rw [parse_keyvalue_table, parse_keyvalue_table]
    have hne : (parseRows (extractNamed 0 1) emptyPyMap rows).2 = false :=
      parseRows_noError _ _ _ (fun r hr => extractNamed01_ok r (hwf r hr))
    rw [parseRows_append _ _ _ _ hne]
    rw [parseRows_single_named_skip _ (Cell.str l) (Cell.str v) hlk]
    exact Prod.ext rfl hne.symm

/-- Witness for `ingest_row_resolution` at concrete tables. -/
theorem ingest_row_resolution_wit :
    (List.lookup (normalize_key "Industry") predefined_keys = some "industry") ∧
    ((parse_uploaded_excel
        (some ⟨["A", "B"], [[Cell.str "Industry", Cell.str "Retail"]]⟩)).1 "industry"
      = some "Retail") ∧
    ((parse_uploaded_excel (some ⟨["A"], [[Cell.str "Industry"]]⟩)).1 "industry"
      = some "") ∧
    ((parse_uploaded_excel
        (some ⟨["Key", "Value"],
          [[Cell.str "Industry", Cell.str "Old"]] ++ [[Cell.str "Industry", Cell.str "New"]]⟩)).1
        "industry" = some "New") ∧
    (parse_uploaded_excel
        (some ⟨["Key", "Value"], [] ++ [[Cell.str "Nonsense", Cell.str "X"]]⟩)
      = parse_uploaded_excel (some ⟨["Key", "Value"], ([] : List (List Cell))⟩)) :=
  ⟨by decide,
   ingest_row_resolution.2.1 "Industry" "Retail" "industry" (by decide),
   ingest_row_resolution.2.2.1 "Industry" "industry" (by decide),
   ingest_row_resolution.2.2.2.1 [[Cell.str "Industry", Cell.str "Old"]]
     "Industry" "New" "industry" (by decide) (by decide),
   ingest_row_resolution.2.2.2.2 [] "Nonsense" "X" (by decide) (by decide)⟩

/-- C9: every key of an `AnswerMap` produced by `parse_uploaded_excel` is a
`slot_id` of the fixed 24-slot questionnaire; labels that do not resolve
never introduce keys outside it. -/
theorem answer_map_keys_invariant (src : Option Table) (k v : String)
    (h : (parse_uploaded_excel src).1 k = some v) :
    k ∈ questions.map Prod.fst := by
  have main : ∀ (extract : List Cell → Except Unit (String × String)) rows,
      (parseRows extract emptyPyMap rows).1 k = some v →
      k ∈ predefined_keys.map Prod.snd := by
    intro extract rows hsome
    rcases parseRows_support extract emptyPyMap rows k
        (by rw [hsome]; exact Option.some_ne_none v) with hm | hp
    · exact absurd rfl hm
    · exact hp
  cases src with
  | none => exact absurd h (by simp [parse_uploaded_excel, emptyPyMap])
  | some t =>
    rcases hK : colIdx "Key" t.columns with _ | ki
    · simp only [parse_uploaded_excel, hK] at h
      exact predefined_values_in_questions k (main _ _ h)
    · rcases hV : colIdx "Value" t.columns with _ | vi
      · simp only [parse_uploaded_excel, hK, hV] at h
        exact predefined_values_in_questions k (main _ _ h)
      · simp only [parse_uploaded_excel, hK, hV] at h
        exact predefined_values_in_questions k (main _ _ h)

/-- Witness for `answer_map_keys_invariant` at a concrete positional table. -/
theorem answer_map_keys_invariant_wit :
    ((parse_uploaded_excel
        (some ⟨["A", "B"], [[Cell.str "Industry", Cell.str "Retail"]]⟩)).1 "industry"
      = some "Retail") ∧
    "industry" ∈ questions.map Prod.fst :=
  ⟨by decide,
   answer_map_keys_invariant
     (some ⟨["A", "B"], [[Cell.str "Industry", Cell.str "Retail"]]⟩)
     "industry" "Retail" (by decide)⟩

/-- C6: a malformed or unreadable tabular source is reported to the caller
as a recoverable error and yields the empty `AnswerMap`; the embedding of
`parse_uploaded_excel` is total (the `try/except` catches every exception),
and on every well-formed readable table no error is reported at all — the
error path exists only for the unreadable-source case. -/
theorem ingestion_error_boundary :
    ((parse_uploaded_excel none).2 = true ∧
      ∀ k, (parse_uploaded_excel none).1 k = none) ∧
    (∀ t, WellFormedTable t → (parse_uploaded_excel (some t)).2 = false) := by
  refine ⟨⟨rfl, fun k => rfl⟩, ?_⟩
  intro t hwf
  rcases hK : colIdx "Key" t.columns with _ | ki
  · simp only [parse_uploaded_excel, hK]
    exact parseRows_noError _ _ _ (fun r hr => extractPos_ok r (hwf r hr).2)
  · rcases hV : colIdx "Value" t.columns with _ | vi
    · simp only [parse_uploaded_excel, hK, hV]
      exact parseRows_noError _ _ _ (fun r hr => extractPos_ok r (hwf r hr).2)
    · simp only [parse_uploaded_excel, hK, hV]
      refine parseRows_noError _ _ _ (fun r hr => ?_)
      have hlen := (hwf r hr).1
      exact extractNamed_ok ki vi r
        (by rw [hlen]; exact colIdx_lt_length _ _ _ hK)
        (by rw [hlen]; exact colIdx_lt_length _ _ _ hV)

/-- Witness for `ingestion_error_boundary` at a concrete well-formed table. -/
theorem ingestion_error_boundary_wit :
    WellFormedTable ⟨["Key", "Value"], [[Cell.str "Industry", Cell.str "Retail"]]⟩ ∧
    (parse_uploaded_excel
      (some ⟨["Key", "Value"], [[Cell.str "Industry", Cell.str "Retail"]]⟩)).2 = false :=
  ⟨by intro row hr; rw [List.mem_singleton] at hr; subst hr; exact ⟨rfl, by decide⟩,
   ingestion_error_boundary.2
     ⟨["Key", "Value"], [[Cell.str "Industry", Cell.str "Retail"]]⟩
     (by intro row hr; rw [List.mem_singleton] at hr; subst hr; exact ⟨rfl, by decide⟩)⟩

/-- C4: values stored by `parse_uploaded_excel` are the Python `str(...)`
rendering of the raw cell; a blank spreadsheet cell arrives as the pandas
NaN and is stored as the literal four-character string `"nan"`, which is
non-empty after stripping, so the slot counts as answered downstream in
`generate_full_report`. -/
theorem nan_cell_stored_as_nan (rows : List (List Cell)) (l slot : String)
    (hwf : ∀ r ∈ rows, r.length = 2)
    (hlk : List.lookup (normalize_key l) predefined_keys = some slot) :
    pyStr Cell.nan = "nan" ∧
    (parse_uploaded_excel
        (some ⟨["Key", "Value"], rows ++ [[Cell.str l, Cell.nan]]⟩)).1 slot
      = some "nan" ∧
    pyStrip "nan" ≠ "" ∧
    (∀ q ∈ questions, q.1 = slot →
      answeredB (parse_uploaded_excel
        (some ⟨["Key", "Value"], rows ++ [[Cell.str l, Cell.nan]]⟩)).1 q = true) := by
  have hmap : (parse_uploaded_excel
      (some ⟨["Key", "Value"], rows ++ [[Cell.str l, Cell.nan]]⟩)).1 slot
      = some "nan" := by
    rw [parse_keyvalue_table]
    have hne : (parseRows (extractNamed 0 1) emptyPyMap rows).2 = false :=
      parseRows_noError _ _ _ (fun r hr => extractNamed01_ok r (hwf r hr))
    rw [parseRows_append _ _ _ _ hne]
    rw [parseRows_single_named _ (Cell.str l) Cell.nan slot hlk]
    simp [pupdate, pyStr]
  refine ⟨rfl, hmap, by decide, ?_⟩
  intro q _ hqs
  simp [answeredB, pyGet, hqs, hmap]
  decide

/-- Witness for `nan_cell_stored_as_nan`: the single-row table whose
`Overview` value cell is blank. -/
theorem nan_cell_stored_as_nan_wit :
    (∀ r ∈ ([] : List (List Cell)), r.length = 2) ∧
    List.lookup (normalize_key "Overview") predefined_keys = some "overview" ∧
    (pyStr Cell.nan = "nan" ∧
      (parse_uploaded_excel
          (some ⟨["Key", "Value"], [] ++ [[Cell.str "Overview", Cell.nan]]⟩)).1 "overview"
        = some "nan" ∧
      pyStrip "nan" ≠ "" ∧
      (∀ q ∈ questions, q.1 = "overview" →
        answeredB (parse_uploaded_excel
          (some ⟨["Key", "Value"], [] ++ [[Cell.str "Overview", Cell.nan]]⟩)).1 q
          = true)) :=
  ⟨by simp, by decide,
   nan_cell_stored_as_nan [] "Overview" "overview" (by simp) (by decide)⟩

/-- C3: the bug in the template round trip.  The first conjunct shows the
intended half of the claim does hold: the 24 template labels normalize,
via `normalize_key` and `predefined_keys`, exactly onto the 24 canonical
slot identifiers, in questionnaire order.  But ingesting the template
filled only with `company_name = "Acme"` and `industry = "Tech"` does not
yield the map `{company_name: "Acme", industry: "Tech"}`: every blank value
cell comes back from `pd.read_excel` as NaN and is stored as the non-empty
string `"nan"`, so all 24 slots are populated (shown here for `overview`
and `risk_management`) and count as answered. -/
theorem template_roundtrip_nan_bug :
    (templateLabels.map (fun l => List.lookup (normalize_key l) predefined_keys)
      = questions.map (fun q => some q.1)) ∧
    (parse_uploaded_excel (some filledTemplateTable)).1 "company_name" = some "Acme" ∧
    (parse_uploaded_excel (some filledTemplateTable)).1 "industry" = some "Tech" ∧
    (parse_uploaded_excel (some filledTemplateTable)).1 "overview" = some "nan" ∧
    (parse_uploaded_excel (some filledTemplateTable)).1 "risk_management" = some "nan" ∧
    pyStrip "nan" ≠ "" := by
  decide

/-- C5 counterexample: `measure_compliance` strips the service response
before parsing and before storing it in the fallback, so for the response
`" not json at all "` the `strengths` field holds the trimmed text, not the
entire raw response text. -/
theorem evaluate_fallback_strips_cex :
    measure_compliance (fun _ => none) (fun _ => some " not json at all ") "r" "CSRD"
      = some (complianceFallback "not json at all") ∧
    "not json at all" ≠ " not json at all " :=
  ⟨rfl, by decide⟩

/-- C5 as amended: whenever the generation service returns a response and
parsing its whitespace-trimmed text as JSON fails or yields a non-object,
`measure_compliance` returns (without raising) the fallback result with
`score` absent, `strengths` equal to the trimmed raw response text, and
`weaknesses` and `recommendations` empty. -/
theorem evaluate_fallback_trimmed (loads : String → Option Json)
    (svc : String → Option String) (report_text standard content : String)
    (hsvc : svc (compliance_prompt standard report_text) = some content)
    (hparse : loads (pyStrip content) = none ∨
      ∃ j, loads (pyStrip content) = some j ∧ ∀ fields, j ≠ Json.obj fields) :
    measure_compliance loads svc report_text standard =
      some (complianceFallback (pyStrip content)) := by
  simp only [measure_compliance, hsvc]
  rcases hparse with hnone | ⟨j, hj, hobj⟩
  · simp only [hnone]
  · simp only [hj]

/-- Witness for `evaluate_fallback_trimmed` at the response
`"not json at all"` with a parser that rejects it. -/
theorem evaluate_fallback_trimmed_wit :
    ((fun _ : String => some "not json at all") (compliance_prompt "CSRD" "r")
      = some "not json at all") ∧
    ((fun _ : String => (none : Option Json)) (pyStrip "not json at all") = none ∨
      ∃ j, (fun _ : String => (none : Option Json)) (pyStrip "not json at all") = some j ∧
        ∀ fields, j ≠ Json.obj fields) ∧
    measure_compliance (fun _ => none) (fun _ => some "not json at all") "r" "CSRD"
      = some (complianceFallback (pyStrip "not json at all")) :=
  ⟨rfl, Or.inl rfl,
   evaluate_fallback_trimmed (fun _ => none) (fun _ => some "not json at all")
     "r" "CSRD" "not json at all" rfl (Or.inl rfl)⟩

/-- C10: after the final sanitization pass of `create_pdf`, no page contains
U+2013, U+2014 or U+2019 (each was replaced by a plain ASCII equivalent),
and the single-byte `latin1` encoding with `errors="replace"` is total:
every output byte is below 256, and any character outside the Latin-1 range
is substituted with `?` (byte 63) instead of raising. -/
theorem pdf_sanitize_encode (pages : List String) (p : String)
    (hp : p ∈ sanitizePages pages) :
    (∀ c ∈ p.toList, c ≠ '–' ∧ c ≠ '—' ∧ c ≠ '’') ∧
    (∀ b ∈ encodeLatin1Replace p, b < 256) ∧
    (∀ c : Char, 255 < c.toNat → latin1ReplaceByte c = 63) := by
  refine ⟨?_, ?_, ?_⟩
  · intro c hc
    rcases List.mem_map.mp hp with ⟨q, _, rfl⟩
    have hc' : c ∈ (q.toList.map sanitizeChar) := by
      simpa [sanitizePage] using hc
    rcases List.mem_map.mp hc' with ⟨c0, _, rfl⟩
    exact sanitizeChar_avoids c0
  · intro b hb
    rcases List.mem_map.mp hb with ⟨c, _, rfl⟩
    exact latin1ReplaceByte_lt c
  · intro c hc
    unfold latin1ReplaceByte
    rw [if_neg (by omega)]

/-- Witness for `pdf_sanitize_encode` at a page containing all three
typographic characters. -/
theorem pdf_sanitize_encode_wit :
    (sanitizePage "a–b—c’d" ∈ sanitizePages ["a–b—c’d"]) ∧
    ((∀ c ∈ (sanitizePage "a–b—c’d").toList, c ≠ '–' ∧ c ≠ '—' ∧ c ≠ '’') ∧
      (∀ b ∈ encodeLatin1Replace (sanitizePage "a–b—c’d"), b < 256) ∧
      (∀ c : Char, 255 < c.toNat → latin1ReplaceByte c = 63)) :=
  ⟨by decide, pdf_sanitize_encode ["a–b—c’d"] (sanitizePage "a–b—c’d") (by decide)⟩
